import Mathlib

/-!
Verification of the DayNightLightShift plugin
(`src/DayNightLightShift.indigoPlugin/Contents/Server Plugin/plugin.py`).

The plugin is a shift router: it keeps a registry of "shift" virtual
devices (`Plugin.shifts`, a dict keyed by the shift's device id) and a
reverse index from monitored-device id to the set of shifts referencing
it (`Plugin.device_to_shifts`).  All host interaction is synchronous and
single threaded, so we embed the handlers as pure functions on a `World`
record holding the plugin state, the host's device-state registry
(`indigo.devices`, modelled as a total map — the host guarantees every
referenced device exists) and an outbound event trace (power commands,
refresh requests and `updateStateOnServer` publications).

Python-specific semantics kept by the embedding:
- `dict.get` returns `none` for a missing key; attribute access on that
  `None` raises, which we model as an `ok = false` result with the state
  mutated exactly as far as Python got before the exception.
- `dict.pop k` and `set.remove x` raise `KeyError` when absent; same
  modelling.
- The `Shift` objects stored in the registry and in the reverse-index
  sets are the same Python objects (`Shift.__hash__` is the device id and
  registry keys are unique), so the reverse-index sets are represented by
  lists of shift device ids and mutation happens in the registry.
- At runtime `Shift.mode` always holds a plain string (it is assigned
  from `dev.states.get('mode')` and from `action.props['mode']`), never a
  `Mode` enum value, so the embedding uses `String`.
-/

/-- Device states kept by the host for one device: the `onOffState`
boolean and the optional `mode` state (absent for devices that never had
one). -/
structure DevState where
  onOffState : Bool
  mode : Option String
deriving DecidableEq

/-- Embedding of the `Shift` dataclass of `plugin.py`. -/
structure Shift where
  device_id : Nat
  onOffState : Bool
  mode : String
  day_device_id : Nat
  night_device_id : Nat
deriving DecidableEq

/-- Embedding of the `Shift.current_shift_device_id` property:
`if self.mode == 'day': return self.day_device_id else: return self.night_device_id`. -/
def Shift.current_shift_device_id (s : Shift) : Nat :=
  if s.mode = "day" then s.day_device_id else s.night_device_id

/-- Outbound events observable by the host: power commands
(`indigo.device.turnOn` / `turnOff`), refresh requests
(`refreshFromServer`) and state publications (`updateStateOnServer`). -/
inductive Cmd where
  | turnOn (deviceId : Nat)
  | turnOff (deviceId : Nat)
  | refresh (deviceId : Nat)
  | pubOnOff (deviceId : Nat) (v : Bool)
  | pubMode (deviceId : Nat) (m : String)
deriving DecidableEq

/-- Pointwise update of a total map. -/
def upd {α : Type} (f : Nat → α) (k : Nat) (v : α) : Nat → α :=
  fun i => if i = k then v else f i

/-- The whole observable state: plugin registries, host device states and
the outbound event trace. -/
structure World where
  shifts : Nat → Option Shift
  device_to_shifts : Nat → Option (List Nat)
  devs : Nat → DevState
  trace : List Cmd

/-- Embedding of `updateStateOnServer('onOffState', v)` on device `devId`:
records the publication and updates the host's device state. -/
def updateOnOff (w : World) (devId : Nat) (v : Bool) : World :=
  { w with
    devs := upd w.devs devId { w.devs devId with onOffState := v }
    trace := w.trace ++ [Cmd.pubOnOff devId v] }

/-- Embedding of `updateStateOnServer('mode', m)` on device `devId`. -/
def updateModeState (w : World) (devId : Nat) (m : String) : World :=
  { w with
    devs := upd w.devs devId { w.devs devId with mode := some m }
    trace := w.trace ++ [Cmd.pubMode devId m] }

/-- The `STATES = ['day', 'night']` list of `plugin.py`. -/
def STATES : List String := ["day", "night"]

/-- The test guarding the default-mode fallback in `deviceStartComm`:
`dev.states.get('mode') is None or dev.states.get('mode') not in STATES`
is the negation of this predicate. -/
def validStateMode (m : Option String) : Bool :=
  match m with
  | none => false
  | some s => STATES.contains s

/-- Python `set.add` on a duplicate-free list. -/
def setAdd (l : List Nat) (x : Nat) : List Nat :=
  if x ∈ l then l else l ++ [x]

/-- Embedding of `Plugin.deviceStartComm`: apply the default-mode
fallback, build the `Shift` with `onOffState = False`, insert it into the
reverse index under both target ids (`setdefault(..., set()).add`) and
into the registry.  The function is total: no input raises. -/
def deviceStartComm (w : World) (devId : Nat) (default_mode : String)
    (dayId nightId : Nat) : World :=
  let w1 := if validStateMode (w.devs devId).mode then w
            else updateModeState w devId default_mode
  let shift : Shift :=
    { device_id := devId
      onOffState := false
      mode := ((w1.devs devId).mode).getD default_mode
      day_device_id := dayId
      night_device_id := nightId }
  let e1 := (w1.device_to_shifts dayId).getD []
  let w2 := { w1 with device_to_shifts := upd w1.device_to_shifts dayId (some (setAdd e1 devId)) }
  let e2 := (w2.device_to_shifts nightId).getD []
  let w3 := { w2 with device_to_shifts := upd w2.device_to_shifts nightId (some (setAdd e2 devId)) }
  { w3 with shifts := upd w3.shifts devId (some shift) }

/-- One reverse-index removal step of `Plugin.deviceStopComm`:
`self.device_to_shifts[dev].remove(shift)` followed by the empty-entry
pruning.  Returns `none` when Python raises `KeyError` (missing index
entry, or shift not in the set). -/
def removeShiftFromEntry (idx : Nat → Option (List Nat)) (devKey sid : Nat) :
    Option (Nat → Option (List Nat)) :=
  match idx devKey with
  | none => none
  | some entry =>
    if sid ∈ entry then
      let rest := entry.filter (fun x => x ≠ sid)
      if rest = [] then some (upd idx devKey none)
      else some (upd idx devKey (some rest))
    else none

/-- Embedding of `Plugin.deviceStopComm`: pop the shift from the registry
(`KeyError` when unknown), then remove it from the day entry and the
night entry, pruning entries that become empty.  The `Bool` is `false`
when Python raises; mutations made before the raise are kept, as in
Python. -/
def deviceStopComm (w : World) (devId : Nat) : World × Bool :=
  match w.shifts devId with
  | none => (w, false)
  | some shift =>
    let w1 := { w with shifts := upd w.shifts devId none }
    match removeShiftFromEntry w1.device_to_shifts shift.day_device_id shift.device_id with
    | none => (w1, false)
    | some idx1 =>
      let w2 := { w1 with device_to_shifts := idx1 }
      match removeShiftFromEntry w2.device_to_shifts shift.night_device_id shift.device_id with
      | none => (w2, false)
      | some idx2 => ({ w2 with device_to_shifts := idx2 }, true)

/-- The per-shift body of the `Plugin.deviceUpdated` loop: when the
changed device is the shift's active target (`mode == 'day'` and the day
id matches, or `mode == 'night'` and the night id matches) copy the new
on/off value into the shift and publish it on the virtual device; any
other shift is left untouched. -/
def applyShiftUpdate (d : Nat) (v : Bool) (w : World) (sid : Nat) : World :=
  match w.shifts sid with
  | none => w
  | some shift =>
    if shift.mode = "day" ∧ shift.day_device_id = d then
      updateOnOff { w with shifts := upd w.shifts sid (some { shift with onOffState := v }) }
        shift.device_id v
    else if shift.mode = "night" ∧ shift.night_device_id = d then
      updateOnOff { w with shifts := upd w.shifts sid (some { shift with onOffState := v }) }
        shift.device_id v
    else w

/-- Embedding of `Plugin.deviceUpdated`: look the changed device up in
the reverse index (`.get`, no-op when absent) and run the loop body over
every shift of the entry.  `v` is `new_dev.states.get('onOffState')`. -/
def deviceUpdated (w : World) (d : Nat) (v : Bool) : World :=
  match w.device_to_shifts d with
  | none => w
  | some entry => entry.foldl (applyShiftUpdate d v) w

/-- Embedding of `Plugin.turn_on_shift`: `shifts.get` (attribute access
on `None` raises when unknown), publish `onOffState = True` on the
virtual device, then `indigo.device.turnOn` on the active target.  Note:
the handler never writes the shift's own cached `onOffState` field. -/
def turn_on_shift (w : World) (shiftId : Nat) : World × Bool :=
  match w.shifts shiftId with
  | none => (w, false)
  | some shift =>
    let w1 := updateOnOff w shift.device_id true
    ({ w1 with trace := w1.trace ++ [Cmd.turnOn shift.current_shift_device_id] }, true)

/-- Embedding of `Plugin.turn_off_shift`, symmetric to `turn_on_shift`. -/
def turn_off_shift (w : World) (shiftId : Nat) : World × Bool :=
  match w.shifts shiftId with
  | none => (w, false)
  | some shift =>
    let w1 := updateOnOff w shift.device_id false
    ({ w1 with trace := w1.trace ++ [Cmd.turnOff shift.current_shift_device_id] }, true)

/-- Embedding of the `RequestStatus` branch of
`Plugin.actionControlDevice`: `shifts.get` (raises on `None` when
unknown), `refreshFromServer` on the active target, then three
`updateStateOnServer` calls on the virtual device — the cached
`onOffState`, the cached `mode`, and finally the monitored device's
host-cached `onOffState`, which overwrites the first publication. -/
def request_status (w : World) (shiftId : Nat) : World × Bool :=
  match w.shifts shiftId with
  | none => (w, false)
  | some shift =>
    let monId := shift.current_shift_device_id
    let monOn := (w.devs monId).onOffState
    let w1 := { w with trace := w.trace ++ [Cmd.refresh monId] }
    let w2 := updateOnOff w1 shiftId shift.onOffState
    let w3 := updateModeState w2 shiftId shift.mode
    (updateOnOff w3 shiftId monOn, true)

/-- Embedding of `Plugin.set_shift`: `shifts.get` (raises on `None` when
unknown), store the raw `mode` string on the shift, publish it, and when
the cached `onOffState` is true issue `turnOn` to the day device and
`turnOff` to the night device if `mode == 'day'`, the mirror pair
otherwise.  No validation of `mode` is performed. -/
def set_shift (w : World) (shiftId : Nat) (mode : String) : World × Bool :=
  match w.shifts shiftId with
  | none => (w, false)
  | some shift =>
    let shift1 := { shift with mode := mode }
    let w1 := { w with shifts := upd w.shifts shiftId (some shift1) }
    let w2 := updateModeState w1 shiftId mode
    let w3 :=
      if shift1.onOffState then
        if mode = "day" then
          { w2 with trace := w2.trace ++ [Cmd.turnOn shift.day_device_id, Cmd.turnOff shift.night_device_id] }
        else
          { w2 with trace := w2.trace ++ [Cmd.turnOn shift.night_device_id, Cmd.turnOff shift.day_device_id] }
      else w2
    (w3, true)

/-- Embedding of the dataclass method `Shift.turn_on` (present in
`plugin.py` though not called by the handlers): issue the power command,
set the cached `onOffState` to `True`, and publish it. -/
def Shift.turn_on (s : Shift) (w : World) : Shift × World :=
  let w1 := { w with trace := w.trace ++ [Cmd.turnOn s.current_shift_device_id] }
  let s1 := { s with onOffState := true }
  (s1, updateOnOff w1 s.device_id true)

/-- Embedding of the dataclass method `Shift.turn_off`. -/
def Shift.turn_off (s : Shift) (w : World) : Shift × World :=
  let w1 := { w with trace := w.trace ++ [Cmd.turnOff s.current_shift_device_id] }
  let s1 := { s with onOffState := false }
  (s1, updateOnOff w1 s.device_id false)


/-! Concrete states used to exercise the definitions. -/

/-- A shift in day mode whose cached power state is off. -/
def shiftA : Shift :=
  { device_id := 1
    onOffState := false
    mode := "day"
    day_device_id := 10
    night_device_id := 20 }

/-- A shift in night mode whose cached power state is on. -/
def shiftB : Shift :=
  { device_id := 2
    onOffState := true
    mode := "night"
    day_device_id := 10
    night_device_id := 30 }

/-- A concrete world: two registered shifts, the reverse index filled
accordingly, and the host reporting device 10 as powered on. -/
def w0 : World :=
  { shifts := fun i => if i = 1 then some shiftA else if i = 2 then some shiftB else none
    device_to_shifts := fun i =>
      if i = 10 then some [1, 2] else if i = 20 then some [1]
      else if i = 30 then some [2] else none
    devs := fun i => { onOffState := i == 10, mode := if i ≤ 2 then some "day" else none }
    trace := [] }

/-! Helper lemmas about the map combinator. -/

@[simp]
theorem upd_same {α : Type} (f : Nat → α) (k : Nat) (v : α) : upd f k v k = v := by
  simp [upd]

@[simp]
theorem upd_other {α : Type} (f : Nat → α) (k i : Nat) (v : α) (h : i ≠ k) :
    upd f k v i = f i := by
  simp [upd, h]

/-! Claim theorems. -/

/-- C8: for every shift, `current_shift_device_id` returns the day device
id when the mode is the DAY value (`'day'`) and the night device id
otherwise. -/
theorem current_shift_device_id_spec (s : Shift) :
    (s.mode = "day" → s.current_shift_device_id = s.day_device_id)
    ∧ (s.mode ≠ "day" → s.current_shift_device_id = s.night_device_id) := by
  constructor <;> intro h <;> simp [Shift.current_shift_device_id, h]

/-- Witness for `current_shift_device_id_spec` at two concrete shifts. -/
theorem current_shift_device_id_spec_witness :
    shiftA.current_shift_device_id = shiftA.day_device_id
    ∧ shiftB.current_shift_device_id = shiftB.night_device_id :=
  ⟨(current_shift_device_id_spec shiftA).1 rfl,
   (current_shift_device_id_spec shiftB).2 (by decide)⟩

/-- C7: every operation that looks up a shift fails with an error on an
unregistered id, leaving the state untouched: `deviceStopComm` raises
`KeyError` from `dict.pop`, and the four command handlers dereference the
`None` returned by `dict.get`. -/
theorem unknown_shift_fails (w : World) (sid : Nat) (m : String)
    (h : w.shifts sid = none) :
    deviceStopComm w sid = (w, false)
    ∧ turn_on_shift w sid = (w, false)
    ∧ turn_off_shift w sid = (w, false)
    ∧ request_status w sid = (w, false)
    ∧ set_shift w sid m = (w, false) := by
  refine ⟨?_, ?_, ?_, ?_, ?_⟩ <;>
    simp [deviceStopComm, turn_on_shift, turn_off_shift, request_status, set_shift, h]

/-- Witness for `unknown_shift_fails` at the unregistered id 99. -/
theorem unknown_shift_fails_witness :
    w0.shifts 99 = none ∧ deviceStopComm w0 99 = (w0, false) :=
  ⟨rfl, (unknown_shift_fails w0 99 "day" rfl).1⟩

/-- C1 (divergence): `turn_on_shift` publishes `onOffState = True` on the
virtual device and issues exactly one `turnOn` to the active target, but
leaves the registry's cached `onOffState` unchanged (still the whole
`shiftA`, with `onOffState = false`), although the dataclass's own
`Shift.turn_on` method sets the cached field; `turn_off_shift` likewise
leaves `shiftB.onOffState = true`. -/
theorem turn_on_shift_cached_state_bug :
    (turn_on_shift w0 1).1.shifts 1 = some shiftA
    ∧ shiftA.onOffState = false
    ∧ (turn_on_shift w0 1).1.trace = [Cmd.pubOnOff 1 true, Cmd.turnOn 10]
    ∧ (turn_on_shift w0 1).2 = true
    ∧ (Shift.turn_on shiftA w0).1.onOffState = true
    ∧ (turn_off_shift w0 2).1.shifts 2 = some shiftB
    ∧ shiftB.onOffState = true
    ∧ (turn_off_shift w0 2).1.trace = [Cmd.pubOnOff 2 false, Cmd.turnOff 30]
    ∧ (Shift.turn_off shiftB w0).1.onOffState = false := by
  refine ⟨rfl, rfl, rfl, rfl, rfl, rfl, rfl, rfl, rfl⟩

/-- C10: `set_shift` stores and publishes any mode string verbatim, and
when the cached state is on it routes every value other than `'day'`
through the night branch. -/
theorem set_shift_no_validation (w : World) (sid : Nat) (shift : Shift) (m : String)
    (hs : w.shifts sid = some shift) :
    (set_shift w sid m).2 = true
    ∧ (set_shift w sid m).1.shifts sid = some { shift with mode := m }
    ∧ ((set_shift w sid m).1.devs sid).mode = some m
    ∧ (set_shift w sid m).1.trace =
        w.trace ++ [Cmd.pubMode sid m]
          ++ (if shift.onOffState then
                (if m = "day" then
                  [Cmd.turnOn shift.day_device_id, Cmd.turnOff shift.night_device_id]
                 else
                  [Cmd.turnOn shift.night_device_id, Cmd.turnOff shift.day_device_id])
              else []) := by
  refine ⟨?_, ?_, ?_, ?_⟩ <;>
    simp only [set_shift, hs, updateModeState] <;>
    by_cases hOn : shift.onOffState <;> by_cases hd : m = "day" <;>
      simp [hOn, hd, List.append_assoc]

/-- Witness for `set_shift_no_validation` with the out-of-range mode
string `'banana'` on a shift that is on. -/
theorem set_shift_no_validation_witness :
    w0.shifts 2 = some shiftB
    ∧ (set_shift w0 2 "banana").1.shifts 2 = some { shiftB with mode := "banana" }
    ∧ (set_shift w0 2 "banana").1.trace =
        w0.trace ++ [Cmd.pubMode 2 "banana"]
          ++ [Cmd.turnOn shiftB.night_device_id, Cmd.turnOff shiftB.day_device_id] :=
  ⟨rfl,
   (set_shift_no_validation w0 2 shiftB "banana" rfl).2.1,
   by
    have h := (set_shift_no_validation w0 2 shiftB "banana" rfl).2.2.2
    simpa using h⟩

/-- The underlying device that becomes active after a mode change to `m`. -/
def newActive (s : Shift) (m : String) : Nat :=
  if m = "day" then s.day_device_id else s.night_device_id

/-- The underlying device that becomes inactive after a mode change to `m`. -/
def newInactive (s : Shift) (m : String) : Nat :=
  if m = "day" then s.night_device_id else s.day_device_id

/-- C3: `set_shift` on a known shift updates and publishes the mode; with
the cached state on it issues exactly one `turnOn` to the newly active
device and exactly one `turnOff` to the newly inactive one, and with the
cached state off it issues no device commands. -/
theorem set_shift_commands (w : World) (sid : Nat) (shift : Shift) (m : String)
    (hs : w.shifts sid = some shift) (hm : m = "day" ∨ m = "night") :
    (set_shift w sid m).2 = true
    ∧ (set_shift w sid m).1.shifts sid = some { shift with mode := m }
    ∧ ((set_shift w sid m).1.devs sid).mode = some m
    ∧ (shift.onOffState = true →
        (set_shift w sid m).1.trace =
          w.trace ++ [Cmd.pubMode sid m, Cmd.turnOn (newActive shift m),
            Cmd.turnOff (newInactive shift m)])
    ∧ (shift.onOffState = false →
        (set_shift w sid m).1.trace = w.trace ++ [Cmd.pubMode sid m]) := by
  refine ⟨?_, ?_, ?_, ?_, ?_⟩
  · simp [set_shift, hs]
  · simp only [set_shift, hs, updateModeState]
    by_cases hOn : shift.onOffState <;> by_cases hd : m = "day" <;> simp [hOn, hd]
  · simp only [set_shift, hs, updateModeState]
    by_cases hOn : shift.onOffState <;> by_cases hd : m = "day" <;> simp [hOn, hd]
  · intro hOn
    simp only [set_shift, hs, updateModeState, newActive, newInactive]
    cases hm with
    | inl hd => simp [hd, hOn, List.append_assoc]
    | inr hd =>
      have hd2 : m ≠ "day" := by simp [hd]
      simp [hd2, hOn, List.append_assoc]
  · intro hOn
    simp only [set_shift, hs, updateModeState]
    simp [hOn]

/-- Witness for `set_shift_commands`: switching the on shift `shiftB` to
day mode issues `turnOn` to its day device and `turnOff` to its night
device. -/
theorem set_shift_commands_witness :
    w0.shifts 2 = some shiftB
    ∧ shiftB.onOffState = true
    ∧ (set_shift w0 2 "day").1.trace =
        w0.trace ++ [Cmd.pubMode 2 "day", Cmd.turnOn (newActive shiftB "day"),
          Cmd.turnOff (newInactive shiftB "day")] :=
  ⟨rfl, rfl, (set_shift_commands w0 2 shiftB "day" rfl (Or.inl rfl)).2.2.2.1 rfl⟩

/-- C4 (amended): `request_status` on a known shift refreshes the active
underlying device, publishes the cached `onOffState` and `mode`, and then
overwrites the published `onOffState` with the active device's
host-cached state, so the virtual device's final published `onOffState`
equals the active device's state, not the shift's cached field. -/
theorem request_status_spec (w : World) (sid : Nat) (shift : Shift)
    (hs : w.shifts sid = some shift) :
    (request_status w sid).2 = true
    ∧ (request_status w sid).1.trace =
        w.trace ++ [Cmd.refresh shift.current_shift_device_id,
          Cmd.pubOnOff sid shift.onOffState,
          Cmd.pubMode sid shift.mode,
          Cmd.pubOnOff sid ((w.devs shift.current_shift_device_id).onOffState)]
    ∧ ((request_status w sid).1.devs sid).onOffState =
        (w.devs shift.current_shift_device_id).onOffState := by
  refine ⟨?_, ?_, ?_⟩ <;>
    simp [request_status, hs, updateOnOff, updateModeState, List.append_assoc]

/-- Witness for `request_status_spec` on the registered shift 1. -/
theorem request_status_spec_witness :
    w0.shifts 1 = some shiftA
    ∧ ((request_status w0 1).1.devs 1).onOffState =
        (w0.devs shiftA.current_shift_device_id).onOffState :=
  ⟨rfl, (request_status_spec w0 1 shiftA rfl).2.2⟩

/-- C4 (counterexample): for shift 1 the cached `onOffState` is `false`,
yet after `request_status` the virtual device's published `onOffState` is
`true` (the host-cached state of the active device 10), so the final
published value does not equal the shift's cached field. -/
theorem request_status_counterexample :
    (w0.shifts 1).map Shift.onOffState = some false
    ∧ ((request_status w0 1).1.devs 1).onOffState = true := by
  refine ⟨rfl, by decide⟩

/-- Successful reverse-index removal: when the entry exists and contains
the shift id, the removal returns an index where the key maps to no list
containing the id and to no empty list, and every other key is
untouched. -/
theorem removeShiftFromEntry_spec (idx : Nat → Option (List Nat)) (k sid : Nat)
    (e : List Nat) (he : idx k = some e) (hm : sid ∈ e) :
    ∃ idx2, removeShiftFromEntry idx k sid = some idx2
      ∧ (∀ l, idx2 k = some l → sid ∉ l ∧ l ≠ [])
      ∧ (∀ j, j ≠ k → idx2 j = idx j) := by
  unfold removeShiftFromEntry
  rw [he]
  simp only [hm, if_true]
  by_cases hr : e.filter (fun x => x ≠ sid) = []
  · rw [if_pos hr]
    refine ⟨_, rfl, ?_, ?_⟩
    · intro l hl
      simp at hl
    · intro j hj
      simp [hj]
  · rw [if_neg hr]
    refine ⟨_, rfl, ?_, ?_⟩
    · intro l hl
      simp only [upd_same, Option.some.injEq] at hl
      subst hl
      constructor
      · intro hmem
        simp [List.mem_filter] at hmem
      · exact hr
    · intro j hj
      simp [hj]

/-- Failing reverse-index removal: when no list at the key contains the
shift id (in particular when the key is absent), the removal raises. -/
theorem removeShiftFromEntry_none (idx : Nat → Option (List Nat)) (k sid : Nat)
    (h : ∀ l, idx k = some l → sid ∉ l) :
    removeShiftFromEntry idx k sid = none := by
  unfold removeShiftFromEntry
  cases hik : idx k with
  | none => rfl
  | some l => simp [h l hik]

/-- C6: stopping a known shift that the reverse index holds under both
its day and night target removes it from the registry and from both
entries, and never leaves an empty entry behind (an emptied entry is
deleted, i.e. the key maps to nothing rather than to `[]`). -/
theorem deviceStopComm_spec (w : World) (devId : Nat) (shift : Shift)
    (hs : w.shifts devId = some shift) (hid : shift.device_id = devId)
    (hd : ∃ e, w.device_to_shifts shift.day_device_id = some e ∧ devId ∈ e)
    (hn : ∃ e, w.device_to_shifts shift.night_device_id = some e ∧ devId ∈ e) :
    (deviceStopComm w devId).1.shifts devId = none
    ∧ (∀ l, (deviceStopComm w devId).1.device_to_shifts shift.day_device_id = some l →
        devId ∉ l ∧ l ≠ [])
    ∧ (∀ l, (deviceStopComm w devId).1.device_to_shifts shift.night_device_id = some l →
        devId ∉ l ∧ l ≠ []) := by
  subst hid
  obtain ⟨e, he, hme⟩ := hd
  obtain ⟨e2, he2, hme2⟩ := hn
  obtain ⟨idx1, heq1, hpost1, hframe1⟩ :=
    removeShiftFromEntry_spec w.device_to_shifts shift.day_device_id shift.device_id e he hme
  by_cases hnd : shift.night_device_id = shift.day_device_id
  · have hnone : removeShiftFromEntry idx1 shift.night_device_id shift.device_id = none := by
      rw [hnd]
      exact removeShiftFromEntry_none _ _ _ (fun l hl => (hpost1 l hl).1)
    simp only [deviceStopComm, hs, heq1, hnone]
    refine ⟨by simp, hpost1, by rw [hnd]; exact hpost1⟩
  · have he2a : idx1 shift.night_device_id = some e2 := by
      rw [hframe1 _ hnd]
      exact he2
    obtain ⟨idx2, heq2, hpost2, hframe2⟩ :=
      removeShiftFromEntry_spec idx1 shift.night_device_id shift.device_id e2 he2a hme2
    simp only [deviceStopComm, hs, heq1, heq2]
    refine ⟨by simp, ?_, hpost2⟩
    intro l hl
    rw [hframe2 _ (fun h => hnd h.symm)] at hl
    exact hpost1 l hl

/-- Witness for `deviceStopComm_spec` on the registered shift 1 of `w0`. -/
theorem deviceStopComm_spec_witness :
    w0.shifts 1 = some shiftA
    ∧ (deviceStopComm w0 1).1.shifts 1 = none :=
  ⟨rfl,
   (deviceStopComm_spec w0 1 shiftA rfl rfl
      ⟨[1, 2], rfl, by decide⟩ ⟨[1], rfl, by decide⟩).1⟩

/-- Membership in a `setAdd` result. -/
theorem mem_setAdd_self (l : List Nat) (x : Nat) : x ∈ setAdd l x := by
  unfold setAdd
  split
  · assumption
  · simp

/-- C5: after `deviceStartComm` the registry holds a shift keyed by the
device id with `onOffState = false` and the given target ids, the reverse
index holds the shift id under both targets, and when the host-reported
mode state is invalid the shift's mode is the configured default; the
operation is total, so no input raises. -/
theorem deviceStartComm_spec (w : World) (devId : Nat) (dm : String)
    (dayId nightId : Nat) :
    (∃ m, (deviceStartComm w devId dm dayId nightId).shifts devId =
        some { device_id := devId, onOffState := false, mode := m,
               day_device_id := dayId, night_device_id := nightId })
    ∧ devId ∈ ((deviceStartComm w devId dm dayId nightId).device_to_shifts dayId).getD []
    ∧ devId ∈ ((deviceStartComm w devId dm dayId nightId).device_to_shifts nightId).getD []
    ∧ (validStateMode (w.devs devId).mode = false →
        (deviceStartComm w devId dm dayId nightId).shifts devId =
          some { device_id := devId, onOffState := false, mode := dm,
                 day_device_id := dayId, night_device_id := nightId }) := by
  refine ⟨⟨((if validStateMode (w.devs devId).mode then w
              else updateModeState w devId dm).devs devId).mode.getD dm, ?_⟩, ?_, ?_, ?_⟩
  · simp only [deviceStartComm]
    exact upd_same _ _ _
  · by_cases hdn : nightId = dayId
    · subst hdn
      simp [deviceStartComm, mem_setAdd_self]
    · simp only [deviceStartComm]
      rw [upd_other _ _ _ _ (Ne.symm hdn), upd_same]
      simp [mem_setAdd_self]
  · simp [deviceStartComm, mem_setAdd_self]
  · intro hv
    simp [deviceStartComm, hv, updateModeState]

/-- Witness for `deviceStartComm_spec`: device 5 has no mode state in
`w0`, so the shift falls back to the default mode. -/
theorem deviceStartComm_spec_witness :
    validStateMode ((w0.devs 5).mode) = false
    ∧ (deviceStartComm w0 5 "night" 10 40).shifts 5 =
        some { device_id := 5, onOffState := false, mode := "night",
               day_device_id := 10, night_device_id := 40 } :=
  ⟨rfl, (deviceStartComm_spec w0 5 "night" 10 40).2.2.2 rfl⟩

/-- C9: starting a shift whose day and night targets are the same device
`dd` (not yet referenced by any other shift) and then stopping it makes
`deviceStopComm` raise: the first index removal empties and deletes the
single shared entry and the second removal hits the deleted key, so the
call ends in the error state (`false`) with the shift already popped from
the registry and the shared entry deleted. -/
theorem equal_ids_stop_error (w : World) (devId : Nat) (dm : String) (dd : Nat)
    (hfresh : w.device_to_shifts dd = none) :
    (deviceStopComm (deviceStartComm w devId dm dd dd) devId).2 = false
    ∧ (deviceStopComm (deviceStartComm w devId dm dd dd) devId).1.shifts devId = none
    ∧ (deviceStopComm (deviceStartComm w devId dm dd dd) devId).1.device_to_shifts dd
        = none := by
  by_cases hv : validStateMode (w.devs devId).mode <;>
    refine ⟨?_, ?_, ?_⟩ <;>
      simp [deviceStartComm, deviceStopComm, removeShiftFromEntry, setAdd,
        updateModeState, hfresh, hv]

/-- Witness for `equal_ids_stop_error` with the fresh device 40. -/
theorem equal_ids_stop_error_witness :
    w0.device_to_shifts 40 = none
    ∧ (deviceStopComm (deviceStartComm w0 7 "day" 40 40) 7).2 = false :=
  ⟨rfl, (equal_ids_stop_error w0 7 "day" 40 rfl).1⟩

/-- C2's notion of a shift's currently active target for device `d`:
`mode == 'day'` with a matching day id, or `mode == 'night'` with a
matching night id. -/
def activeTarget (s : Shift) (d : Nat) : Prop :=
  (s.mode = "day" ∧ s.day_device_id = d) ∨ (s.mode = "night" ∧ s.night_device_id = d)

instance activeTargetDecidable (s : Shift) (d : Nat) : Decidable (activeTarget s d) :=
  inferInstanceAs (Decidable ((s.mode = "day" ∧ s.day_device_id = d)
    ∨ (s.mode = "night" ∧ s.night_device_id = d)))

/-- The loop body of `deviceUpdated` leaves the registry record of every
other shift unchanged. -/
theorem applyShiftUpdate_other (d : Nat) (v : Bool) (w : World) (j sid : Nat)
    (h : sid ≠ j) :
    (applyShiftUpdate d v w j).shifts sid = w.shifts sid := by
  unfold applyShiftUpdate
  cases hj : w.shifts j with
  | none => rfl
  | some s =>
    by_cases h1 : s.mode = "day" ∧ s.day_device_id = d <;>
      by_cases h2 : s.mode = "night" ∧ s.night_device_id = d <;>
        simp [h1, h2, updateOnOff, upd_other _ _ _ _ h]

/-- The loop body on the shift itself: the record is overwritten with the
new on/off value exactly when the changed device is the active target. -/
theorem applyShiftUpdate_self (d : Nat) (v : Bool) (w : World) (sid : Nat) (s : Shift)
    (hs : w.shifts sid = some s) :
    (applyShiftUpdate d v w sid).shifts sid =
      some (if activeTarget s d then { s with onOffState := v } else s) := by
  unfold applyShiftUpdate
  rw [hs]
  by_cases h1 : s.mode = "day" ∧ s.day_device_id = d
  · have hA : activeTarget s d := Or.inl h1
    simp [h1, hA, updateOnOff]
  · by_cases h2 : s.mode = "night" ∧ s.night_device_id = d
    · have hA : activeTarget s d := Or.inr h2
      simp [h1, h2, hA, updateOnOff]
    · have hA : ¬ activeTarget s d := by
        intro hc
        cases hc with
        | inl hc => exact h1 hc
        | inr hc => exact h2 hc
      simp [h1, h2, hA, hs]

/-- The loop body only appends to the outbound trace. -/
theorem applyShiftUpdate_trace_mono (d : Nat) (v : Bool) (w : World) (j : Nat)
    (c : Cmd) (h : c ∈ w.trace) :
    c ∈ (applyShiftUpdate d v w j).trace := by
  unfold applyShiftUpdate
  cases hj : w.shifts j with
  | none => exact h
  | some s =>
    by_cases h1 : s.mode = "day" ∧ s.day_device_id = d <;>
      by_cases h2 : s.mode = "night" ∧ s.night_device_id = d <;>
        simp [h1, h2, updateOnOff, h]

/-- The loop body on a shift whose active target changed publishes the
new value on the shift's virtual device. -/
theorem applyShiftUpdate_pub (d : Nat) (v : Bool) (w : World) (sid : Nat) (s : Shift)
    (hs : w.shifts sid = some s) (hA : activeTarget s d) :
    Cmd.pubOnOff s.device_id v ∈ (applyShiftUpdate d v w sid).trace := by
  unfold applyShiftUpdate
  rw [hs]
  by_cases h1 : s.mode = "day" ∧ s.day_device_id = d
  · simp [h1, updateOnOff]
  · cases hA with
    | inl hc => exact absurd hc h1
    | inr h2 => simp [h1, h2, updateOnOff]

/-- Folding the loop body never drops trace elements. -/
theorem foldl_trace_mono (d : Nat) (v : Bool) (c : Cmd) :
    ∀ (entry : List Nat) (w : World), c ∈ w.trace →
      c ∈ (entry.foldl (applyShiftUpdate d v) w).trace := by
  intro entry
  induction entry with
  | nil => intro w h; exact h
  | cons h t ih =>
    intro w hw
    simp only [List.foldl_cons]
    exact ih _ (applyShiftUpdate_trace_mono d v w h c hw)

/-- A shift whose record is already a fixed point of the update (either
not targeted, or already carrying the new value) is unchanged by the
whole loop. -/
theorem foldl_apply_stable (d : Nat) (v : Bool) (sid : Nat) (s : Shift) :
    ∀ (entry : List Nat) (w : World), w.shifts sid = some s →
      (activeTarget s d → { s with onOffState := v } = s) →
      (entry.foldl (applyShiftUpdate d v) w).shifts sid = some s := by
  intro entry
  induction entry with
  | nil => intro w hw _; exact hw
  | cons h t ih =>
    intro w hw hfix
    simp only [List.foldl_cons]
    by_cases hh : h = sid
    · subst hh
      refine ih _ ?_ hfix
      rw [applyShiftUpdate_self d v w h s hw]
      by_cases hA : activeTarget s d
      · rw [if_pos hA, hfix hA]
      · rw [if_neg hA]
    · refine ih _ ?_ hfix
      rw [applyShiftUpdate_other d v w h sid (fun hq => hh hq.symm)]
      exact hw

/-- The whole loop on a member shift: its record ends updated exactly
when the changed device is its active target. -/
theorem foldl_apply_lookup (d : Nat) (v : Bool) (sid : Nat) (s : Shift) :
    ∀ (entry : List Nat) (w : World), w.shifts sid = some s → sid ∈ entry →
      (entry.foldl (applyShiftUpdate d v) w).shifts sid =
        some (if activeTarget s d then { s with onOffState := v } else s) := by
  intro entry
  induction entry with
  | nil =>
    intro w _ hm
    simp at hm
  | cons h t ih =>
    intro w hw hm
    simp only [List.foldl_cons]
    by_cases hh : h = sid
    · subst hh
      have hstep := applyShiftUpdate_self d v w h s hw
      refine foldl_apply_stable d v h _ t _ hstep ?_
      by_cases hA : activeTarget s d
      · intro _
        simp [if_pos hA]
      · intro hA2
        rw [if_neg hA] at hA2
        exact absurd hA2 hA
    · have hw2 : (applyShiftUpdate d v w h).shifts sid = some s := by
        rw [applyShiftUpdate_other d v w h sid (fun hq => hh hq.symm)]
        exact hw
      have hm2 : sid ∈ t := by
        cases hm with
        | head => exact absurd rfl hh
        | tail _ hmem => exact hmem
      exact ih _ hw2 hm2

/-- The whole loop publishes the new value for a member shift whose
active target changed. -/
theorem foldl_apply_pub (d : Nat) (v : Bool) (sid : Nat) (s : Shift) :
    ∀ (entry : List Nat) (w : World), w.shifts sid = some s → sid ∈ entry →
      activeTarget s d →
      Cmd.pubOnOff s.device_id v ∈ (entry.foldl (applyShiftUpdate d v) w).trace := by
  intro entry
  induction entry with
  | nil =>
    intro w _ hm
    simp at hm
  | cons h t ih =>
    intro w hw hm hA
    simp only [List.foldl_cons]
    by_cases hh : h = sid
    · subst hh
      exact foldl_trace_mono d v _ t _ (applyShiftUpdate_pub d v w h s hw hA)
    · have hw2 : (applyShiftUpdate d v w h).shifts sid = some s := by
        rw [applyShiftUpdate_other d v w h sid (fun hq => hh hq.symm)]
        exact hw
      have hm2 : sid ∈ t := by
        cases hm with
        | head => exact absurd rfl hh
        | tail _ hmem => exact hmem
      exact ih _ hw2 hm2 hA

/-- C2: for a shift registered in the reverse index under the changed
device `d`, `deviceUpdated` overwrites its `onOffState` with `v` and
publishes it exactly when `d` is the shift's currently active target; a
change to the inactive target leaves the record unchanged, and a device
referenced by no shift makes the whole handler a no-op. -/
theorem deviceUpdated_spec (w : World) (d : Nat) (v : Bool) (sid : Nat)
    (shift : Shift) (entry : List Nat)
    (hE : w.device_to_shifts d = some entry) (hm : sid ∈ entry)
    (hs : w.shifts sid = some shift) (hid : shift.device_id = sid) :
    ((deviceUpdated w d v).shifts sid =
        some (if activeTarget shift d then { shift with onOffState := v } else shift))
    ∧ (activeTarget shift d → Cmd.pubOnOff sid v ∈ (deviceUpdated w d v).trace)
    ∧ (∀ w2 : World, w2.device_to_shifts d = none → deviceUpdated w2 d v = w2) := by
  refine ⟨?_, ?_, ?_⟩
  · simp only [deviceUpdated, hE]
    exact foldl_apply_lookup d v sid shift entry w hs hm
  · intro hA
    simp only [deviceUpdated, hE]
    have hpub := foldl_apply_pub d v sid shift entry w hs hm hA
    rw [hid] at hpub
    exact hpub
  · intro w2 h2
    simp [deviceUpdated, h2]

/-- Witness for `deviceUpdated_spec`: device 10 is the day device of both
shifts; the day-mode shift 1 is updated to on, the night-mode shift 2 is
untouched. -/
theorem deviceUpdated_spec_witness :
    (deviceUpdated w0 10 true).shifts 1 = some { shiftA with onOffState := true }
    ∧ (deviceUpdated w0 10 true).shifts 2 = some shiftB := by
  constructor
  · have h := (deviceUpdated_spec w0 10 true 1 shiftA [1, 2] rfl (by decide) rfl rfl).1
    rw [h, if_pos (by decide)]
  · have h := (deviceUpdated_spec w0 10 true 2 shiftB [1, 2] rfl (by decide) rfl rfl).1
    rw [h, if_neg (by decide)]
